import Mathlib

/-!
Shallow embedding of the CNAV cybersecurity-compliance frontend:
the questionnaire progress tracker (`stores/company.ts`), the auditor
evaluation tracker (`stores/auditor.ts`), the auditor page's
`getEvaluationStats`, and the organizations API fallback path
(`services/api/organizations.ts` together with the pagination helper
`applyPagination` in `services/api/common.ts`).

Modelling conventions:
- JS strings are `String`; `str.trim()` is `jsTrim` (the claims only
  distinguish whitespace-only strings from the rest).
- A JS object used as a string-keyed map (`Record<string, T>`) is an
  association list `List (String × T)`; every record in the program is
  built from `{}` by spread updates `{...m, [k]: v}`, which keeps keys
  duplicate-free, so `Object.keys m = recordKeys m` and
  `Object.values m = recordValues m`.
- A JS `Set<string>` is a `Finset String` (the stores only use `add`,
  `delete`, `has` and `size`).
- JS array indexing `xs[i]` with a possibly out-of-range or negative
  integer index is `jsIndex`, returning `none` for `undefined`.
- Fractional JS number arithmetic (the percentage computations) is `ℚ`;
  integer-valued fields are `Int` or `Nat`.
-/

namespace CNAV

/-- JS `String.prototype.trim()`: strip leading and trailing whitespace
(defined structurally over the string's characters so that concrete
states evaluate; `String.trim` from core is extensionally the same but
does not reduce in the kernel). -/
def jsTrim (s : String) : String :=
  ⟨((s.data.dropWhile Char.isWhitespace).reverse.dropWhile
      Char.isWhitespace).reverse⟩

/-- A JS `File` object as far as the stores observe it (an opaque handle;
the stores never read any field, so one representative field suffices to
keep distinct files distinguishable). -/
structure JsFile where
  name : String
deriving DecidableEq, Repr

/-- JS object spread update `{...m, [k]: v}`: replace the value at an
existing key in place, else append the new binding at the end. -/
def recordSet {α : Type} (m : List (String × α)) (k : String) (v : α) :
    List (String × α) :=
  if m.any (fun p => p.1 == k) then
    m.map (fun p => if p.1 == k then (k, v) else p)
  else
    m ++ [(k, v)]

/-- `Object.keys`. -/
def recordKeys {α : Type} (m : List (String × α)) : List String :=
  m.map Prod.fst

/-- `Object.values`. -/
def recordValues {α : Type} (m : List (String × α)) : List α :=
  m.map Prod.snd

/-- `k in m` / the record has a binding for `k`. -/
def recordHas {α : Type} (m : List (String × α)) (k : String) : Bool :=
  m.any (fun p => p.1 == k)

/-- JS array indexing `xs[i]` with an arbitrary integer index, composed
with the `|| null` normalisation used at the call sites: `undefined`
(out of range) becomes `none`. -/
def jsIndex {α : Type} (xs : List α) (i : Int) : Option α :=
  if h : 0 ≤ i ∧ i.toNat < xs.length then some (xs.get ⟨i.toNat, h.2⟩)
  else none

/-! ## Data model (`frontend/src/types`) -/

/-- `types/question.ts` `Question` (fields as used by the mock data and
the stores: id, question text, audience tags, framework reference,
category tag, related provision ids). -/
structure Question where
  id : String
  question : String
  audience : List String
  cyberessentials_requirement : String
  group_tag : String
  provisions : List String
deriving DecidableEq, Repr

/-- `types/organization.ts` `Organization` (backend `OrganizationResponse`). -/
structure Organization where
  id : String
  organisation_name : String
  acra_number_uen : Option String
  annual_turnover : Option Int
  number_of_employees : Option Int
  date_of_self_assessment : Option String
  scope_of_certification : Option String
  created_at : String
  updated_at : String
deriving DecidableEq, Repr

/-- `Company.status` literal union `'active' | 'completed' | 'pending'`. -/
inductive CompanyStatus where
  | active
  | completed
  | pending
deriving DecidableEq, Repr

/-- `types/organization.ts` `Company extends Organization` (flattened). -/
structure Company where
  org : Organization
  name : String
  registrationDate : String
  status : CompanyStatus
  contactEmail : Option String
  contactPerson : Option String
deriving DecidableEq, Repr

/-- `types/provision.ts` `Provision`. -/
structure Provision where
  id : String
  sectionId : String
  subsection : String
  clause : String
  subclause : String
  provision : String
  keywords : Option (List String)
  questions : Option (List String)
deriving DecidableEq, Repr

/-- Modelled from the spec: the `Answer` type (`types/answer.ts` is not
among the provided sources; the spec's data model gives it a question
identifier, free-text response, optional attached files, submission
timestamp and owning company identifier, and the auditor store reads
`answer.companyId` and `answer.questionId`). -/
structure Answer where
  questionId : String
  answer : String
  files : Option (List JsFile)
  submittedAt : Option String
  companyId : String
deriving DecidableEq, Repr

/-- `Evaluation.result` literal union `'pass' | 'fail' | 'pending'`. -/
inductive EvalResult where
  | pass
  | fail
  | pending
deriving DecidableEq, Repr

/-- `types/evaluation.ts` `Evaluation`. -/
structure Evaluation where
  questionId : String
  answer : String
  result : EvalResult
  reason : Option String
  auditorNotes : Option String
  evaluatedBy : Option String
  evaluatedAt : Option String
deriving DecidableEq, Repr

/-- `ProvisionEvaluation.overallResult` union `'pass' | 'fail' | 'partial'`
(the third literal is spelled `partialRes` because its source spelling is a
reserved word in Lean; `sectionId` in `Provision` likewise renders the
source field `section`). -/
inductive ProvisionResult where
  | pass
  | fail
  | partialRes
deriving DecidableEq, Repr

/-- `types/evaluation.ts` `QuestionEvaluation`. -/
structure QuestionEvaluation where
  question : Question
  answer : Answer
  evaluation : Evaluation
deriving DecidableEq, Repr

/-- `types/evaluation.ts` `ProvisionEvaluation`. -/
structure ProvisionEvaluation where
  provisionId : String
  provision : Provision
  questions : List QuestionEvaluation
  overallResult : ProvisionResult
  passPercentage : ℚ
deriving DecidableEq, Repr

/-! ## Questionnaire progress tracker (`stores/company.ts`) -/

/-- The per-question payload stored in `CompanyState.answers`:
`{ answer: string; files?: File[] }` (with `files` always present after
`setAnswer`, which stores `files || []`). -/
structure AnswerEntry where
  answer : String
  files : List JsFile
deriving DecidableEq, Repr

/-- The questionnaire store's state (`CompanyState` in `stores/company.ts`). -/
structure CompanyState where
  currentCompany : Option Company
  questions : List Question
  answers : List (String × AnswerEntry)
  currentQuestionIndex : Int
  isSubmitted : Bool
  completedQuestions : Finset String
deriving DecidableEq

/-- The store's initial state. -/
def initialCompanyState : CompanyState where
  currentCompany := none
  questions := []
  answers := []
  currentQuestionIndex := 0
  isSubmitted := false
  completedQuestions := ∅

/-- `setCurrentCompany`. -/
def setCurrentCompany (company : Option Company) (s : CompanyState) :
    CompanyState :=
  { s with currentCompany := company }

/-- `setQuestions`: `set({ questions, currentQuestionIndex: 0 })` —
zustand's `set` merges, so every other field is untouched. -/
def setQuestions (questions : List Question) (s : CompanyState) :
    CompanyState :=
  { s with questions := questions, currentQuestionIndex := 0 }

/-- `setAnswer`: overwrite the answer record at `questionId` (storing
`files || []`), and mark the question completed iff `answer.trim()` is
truthy (non-empty), else un-mark it. -/
def setAnswer (questionId : String) (answer : String)
    (files : Option (List JsFile)) (s : CompanyState) : CompanyState :=
  { s with
    answers := recordSet s.answers questionId ⟨answer, files.getD []⟩
    completedQuestions :=
      if jsTrim answer ≠ "" then insert questionId s.completedQuestions
      else s.completedQuestions.erase questionId }

/-- `setCurrentQuestionIndex`: `set({ currentQuestionIndex: index })`
(the store action itself performs no range check). -/
def setCurrentQuestionIndex (index : Int) (s : CompanyState) : CompanyState :=
  { s with currentQuestionIndex := index }

/-- `markQuestionCompleted`. -/
def markQuestionCompleted (questionId : String) (s : CompanyState) :
    CompanyState :=
  { s with completedQuestions := insert questionId s.completedQuestions }

/-- `submitAnswers`: `set({ isSubmitted: true })`. -/
def submitAnswers (s : CompanyState) : CompanyState :=
  { s with isSubmitted := true }

/-- `resetQuestionnaire`. -/
def resetQuestionnaire (s : CompanyState) : CompanyState :=
  { s with
    answers := []
    currentQuestionIndex := 0
    isSubmitted := false
    completedQuestions := ∅ }

/-- `getProgress`: `0` when no questions are loaded, else
`completedQuestions.size / questions.length * 100`. -/
def getProgress (s : CompanyState) : ℚ :=
  if s.questions.length = 0 then 0
  else ((s.completedQuestions.card : ℚ) / (s.questions.length : ℚ)) * 100

/-- `getCurrentQuestion`: `questions[currentQuestionIndex] || null`
(a `Question` object is always truthy, so `|| null` only turns
`undefined` into `null`). -/
def getCurrentQuestion (s : CompanyState) : Option Question :=
  jsIndex s.questions s.currentQuestionIndex

/-- `isQuestionCompleted`. -/
def isQuestionCompleted (questionId : String) (s : CompanyState) : Bool :=
  questionId ∈ s.completedQuestions

/-- `canSubmit`:
`questions.length > 0 && completedQuestions.size === questions.length`. -/
def canSubmit (s : CompanyState) : Bool :=
  decide (0 < s.questions.length) &&
    decide (s.completedQuestions.card = s.questions.length)

/-- `navigateToQuestion` from `app/company/questionnaire/page.tsx`: the
cursor-move operation the questionnaire page exposes; it calls the store's
`setCurrentQuestionIndex` only when `index >= 0 && index < questions.length`. -/
def navigateToQuestion (index : Int) (s : CompanyState) : CompanyState :=
  if 0 ≤ index ∧ index < (s.questions.length : Int) then
    setCurrentQuestionIndex index s
  else s

/-! ## Auditor evaluation tracker (`stores/auditor.ts`) -/

/-- The auditor store's state (`AuditorState` in `stores/auditor.ts`).
The source declares `provisions: any[]`; the only values ever put there
are `Provision`s, so the field is typed accordingly. -/
structure AuditorState where
  companies : List Company
  selectedCompany : Option Company
  questions : List Question
  provisions : List Provision
  answers : List Answer
  evaluations : List (String × Evaluation)
  provisionEvaluations : List (String × ProvisionEvaluation)
  currentProvisionId : Option String
  loading : Bool
  error : Option String
deriving DecidableEq

/-- The auditor store's initial state. -/
def initialAuditorState : AuditorState where
  companies := []
  selectedCompany := none
  questions := []
  provisions := []
  answers := []
  evaluations := []
  provisionEvaluations := []
  currentProvisionId := none
  loading := false
  error := none

/-- `setCompanies`. -/
def setCompanies (companies : List Company) (s : AuditorState) : AuditorState :=
  { s with companies := companies }

/-- `setSelectedCompany`: stores the company and clears the previous
company's evaluation state (`evaluations: {}`, `provisionEvaluations: {}`,
`currentProvisionId: null`). -/
def setSelectedCompany (company : Option Company) (s : AuditorState) :
    AuditorState :=
  { s with
    selectedCompany := company
    evaluations := []
    provisionEvaluations := []
    currentProvisionId := none }

/-- Auditor-store `setQuestions`. -/
def auditorSetQuestions (questions : List Question) (s : AuditorState) :
    AuditorState :=
  { s with questions := questions }

/-- `setProvisions`. -/
def setProvisions (provisions : List Provision) (s : AuditorState) :
    AuditorState :=
  { s with provisions := provisions }

/-- `setAnswers`. -/
def setAnswers (answers : List Answer) (s : AuditorState) : AuditorState :=
  { s with answers := answers }

/-- `setCurrentProvisionId`. -/
def setCurrentProvisionId (provisionId : Option String) (s : AuditorState) :
    AuditorState :=
  { s with currentProvisionId := provisionId }

/-- `setEvaluation`: spread update of the `evaluations` record. -/
def setEvaluation (questionId : String) (evaluation : Evaluation)
    (s : AuditorState) : AuditorState :=
  { s with evaluations := recordSet s.evaluations questionId evaluation }

/-- `setProvisionEvaluation`: spread update of `provisionEvaluations`. -/
def setProvisionEvaluation (provisionId : String)
    (evaluation : ProvisionEvaluation) (s : AuditorState) : AuditorState :=
  { s with
    provisionEvaluations :=
      recordSet s.provisionEvaluations provisionId evaluation }

/-- `clearEvaluations`. -/
def clearEvaluations (s : AuditorState) : AuditorState :=
  { s with
    evaluations := []
    provisionEvaluations := []
    currentProvisionId := none }

/-! ## `getEvaluationStats` (auditor evaluation page, `services/api/README.md`
lines 308–323) -/

/-- The record returned by `getEvaluationStats`. `pending` is
`total - evaluated` on JS numbers, which can go negative if evaluations
exist for ids outside the loaded question list, hence `Int`. -/
structure EvalStats where
  total : Nat
  evaluated : Nat
  passed : Nat
  failed : Nat
  pending : Int
  completionPercentage : ℚ
  passPercentage : ℚ
deriving DecidableEq, Repr

/-- `getEvaluationStats` over the page's `questions` state and the
`evaluations` record: counts `Object.keys(evaluations)` and filters
`Object.values(evaluations)` by result, guarding both percentages with a
ternary on a zero denominator. -/
def getEvaluationStats (questions : List Question)
    (evaluations : List (String × Evaluation)) : EvalStats :=
  let totalQuestions := questions.length
  let evaluatedQuestions := (recordKeys evaluations).length
  let passedQuestions :=
    ((recordValues evaluations).filter (fun e => e.result == EvalResult.pass)).length
  let failedQuestions :=
    ((recordValues evaluations).filter (fun e => e.result == EvalResult.fail)).length
  { total := totalQuestions
    evaluated := evaluatedQuestions
    passed := passedQuestions
    failed := failedQuestions
    pending := (totalQuestions : Int) - (evaluatedQuestions : Int)
    completionPercentage :=
      if 0 < totalQuestions then
        ((evaluatedQuestions : ℚ) / (totalQuestions : ℚ)) * 100
      else 0
    passPercentage :=
      if 0 < evaluatedQuestions then
        ((passedQuestions : ℚ) / (evaluatedQuestions : ℚ)) * 100
      else 0 }

/-! ## Pagination and the organizations API fallback
(`services/api/common.ts`, `services/api/organizations.ts`,
`services/api/mocks/organizations.ts`) -/

/-- `limit`/`offset` options (`OrganizationsApiOptions`); the values the
program ever supplies are non-negative integers. -/
structure PaginationOptions where
  limit : Option Nat
  offset : Option Nat
deriving DecidableEq, Repr

/-- `applyPagination` from `services/api/common.ts`:
`if (options?.offset && options.offset < result.length)` drops the first
`offset` items (`slice(offset)`), where `options?.offset` is truthy only
when present and non-zero; then `if (options?.limit)` keeps the first
`limit` items (`slice(0, limit)`), again only when present and non-zero. -/
def applyPagination {α : Type} (items : List α)
    (options : Option PaginationOptions) : List α :=
  let result := items
  let result :=
    match options.bind PaginationOptions.offset with
    | some off =>
        if off ≠ 0 ∧ off < result.length then result.drop off else result
    | none => result
  match options.bind PaginationOptions.limit with
  | some lim => if lim ≠ 0 then result.take lim else result
  | none => result

/-- `MOCK_ORGANIZATIONS` from `services/api/mocks/organizations.ts`. -/
def MOCK_ORGANIZATIONS : List Organization :=
  [ { id := "1"
      organisation_name := "Tech Solutions Pte Ltd"
      acra_number_uen := some "201234567H"
      annual_turnover := some 5000000
      number_of_employees := some 150
      date_of_self_assessment := some "2024-01-15"
      scope_of_certification := some "IT services and software development"
      created_at := "2024-01-01T00:00:00Z"
      updated_at := "2024-01-15T10:30:00Z" }
  , { id := "2"
      organisation_name := "Singapore Manufacturing Co."
      acra_number_uen := some "199876543B"
      annual_turnover := some 12000000
      number_of_employees := some 350
      date_of_self_assessment := some "2024-02-20"
      scope_of_certification := some "Manufacturing operations and quality control systems"
      created_at := "2023-12-10T09:15:00Z"
      updated_at := "2024-02-20T14:20:00Z" }
  , { id := "3"
      organisation_name := "Digital Marketing Hub"
      acra_number_uen := some "202445678C"
      annual_turnover := some 2500000
      number_of_employees := some 75
      date_of_self_assessment := some "2024-03-10"
      scope_of_certification := some "Digital marketing services and customer data management"
      created_at := "2024-01-20T11:30:00Z"
      updated_at := "2024-03-10T16:45:00Z" }
  , { id := "4"
      organisation_name := "Healthcare Systems Ltd"
      acra_number_uen := some "200567890D"
      annual_turnover := some 8000000
      number_of_employees := some 200
      date_of_self_assessment := some "2024-01-30"
      scope_of_certification := some "Healthcare information systems and patient data management"
      created_at := "2023-11-15T08:00:00Z"
      updated_at := "2024-01-30T12:00:00Z" }
  , { id := "5"
      organisation_name := "Small Business Consultancy"
      acra_number_uen := some "202112345E"
      annual_turnover := some 800000
      number_of_employees := some 25
      date_of_self_assessment := some "2024-02-28"
      scope_of_certification := some "Business consultancy and financial advisory services"
      created_at := "2024-02-01T10:00:00Z"
      updated_at := "2024-02-28T17:30:00Z" }
  ]

/-- The `catch` branch of `organizationsApi.getAll`: on a failed fetch it
returns `applyPagination(MOCK_ORGANIZATIONS, options)`. -/
def organizationsGetAllFallback (options : Option PaginationOptions) :
    List Organization :=
  applyPagination MOCK_ORGANIZATIONS options

/-- The spec's words for the fallback result ("the mock organization list
with the offset applied first and then the limit"): drop `offset` items
(`0` when absent), then keep at most `limit` items (no truncation when
absent). Kept separate from `applyPagination`, which is translated from
the source, so the two can be compared. -/
def paginateSpec {α : Type} (items : List α)
    (options : Option PaginationOptions) : List α :=
  let afterOffset := items.drop ((options.bind PaginationOptions.offset).getD 0)
  match options.bind PaginationOptions.limit with
  | some lim => afterOffset.take lim
  | none => afterOffset

/-! ## The questionnaire store's operation alphabet

Used to state session-wide (temporal) properties: a session is a sequence
of store actions, each of which is one of the store's exported mutators. -/

/-- One invocation of a questionnaire-store action, with its arguments. -/
inductive CompanyOp where
  | setCurrentCompany (company : Option Company)
  | setQuestions (questions : List Question)
  | setAnswer (questionId : String) (answer : String)
      (files : Option (List JsFile))
  | setCurrentQuestionIndex (index : Int)
  | markQuestionCompleted (questionId : String)
  | submitAnswers
  | resetQuestionnaire
deriving DecidableEq

/-- Apply one store action to the state. -/
def applyOp (op : CompanyOp) (s : CompanyState) : CompanyState :=
  match op with
  | .setCurrentCompany company => setCurrentCompany company s
  | .setQuestions questions => setQuestions questions s
  | .setAnswer questionId answer files => setAnswer questionId answer files s
  | .setCurrentQuestionIndex index => setCurrentQuestionIndex index s
  | .markQuestionCompleted questionId => markQuestionCompleted questionId s
  | .submitAnswers => submitAnswers s
  | .resetQuestionnaire => resetQuestionnaire s

/-- Apply a sequence of store actions from left to right. -/
def applyOps (ops : List CompanyOp) (s : CompanyState) : CompanyState :=
  ops.foldl (fun s op => applyOp op s) s

/-! ## Shared concrete data and helper lemmas -/

/-- A minimal concrete question, shaped like the entries of
`MOCK_QUESTIONS`, used in witnesses and counterexamples. -/
def sampleQuestion (i : String) : Question :=
  { id := i
    question := "Q" ++ i
    audience := ["Owner"]
    cyberessentials_requirement := "req"
    group_tag := "CONTEXT"
    provisions := [] }

/-- A minimal concrete evaluation with the given result, used in
witnesses and counterexamples. -/
def sampleEvaluation (qid : String) (r : EvalResult) : Evaluation :=
  { questionId := qid
    answer := "ans"
    result := r
    reason := none
    auditorNotes := none
    evaluatedBy := some "Current Auditor"
    evaluatedAt := none }

/-- Call `setAnswer` once for every id in `ids`, in order, with answer
text `t i` and no files. -/
def answerAll (t : String → String) (ids : List String) (s : CompanyState) :
    CompanyState :=
  ids.foldl (fun s q => setAnswer q (t q) none s) s

theorem answerAll_questions (t : String → String) (ids : List String)
    (s : CompanyState) : (answerAll t ids s).questions = s.questions := by
  induction ids generalizing s with
  | nil => rfl
  | cons q ids ih =>
    show (answerAll t ids (setAnswer q (t q) none s)).questions = s.questions
    rw [ih]
    rfl

theorem answerAll_completedQuestions (t : String → String) (ids : List String)
    (s : CompanyState) (h : ∀ i ∈ ids, jsTrim (t i) ≠ "") :
    (answerAll t ids s).completedQuestions =
      s.completedQuestions ∪ ids.toFinset := by
  induction ids generalizing s with
  | nil => simp [answerAll]
  | cons q ids ih =>
    have hq : jsTrim (t q) ≠ "" := h q (List.mem_cons_self q ids)
    have h' : ∀ i ∈ ids, jsTrim (t i) ≠ "" := fun i hi =>
      h i (List.mem_cons_of_mem q hi)
    show (answerAll t ids (setAnswer q (t q) none s)).completedQuestions = _
    rw [ih _ h']
    have hset : (setAnswer q (t q) none s).completedQuestions =
        insert q s.completedQuestions := by
      simp [setAnswer, hq]
    rw [hset, List.toFinset_cons, Finset.insert_union, Finset.union_insert]

/-- `passPercentage` unfolded: the percentage is the guarded ratio of the
`passed` and `evaluated` fields. -/
theorem getEvaluationStats_passPercentage (qs : List Question)
    (m : List (String × Evaluation)) :
    (getEvaluationStats qs m).passPercentage =
      if 0 < (getEvaluationStats qs m).evaluated then
        ((getEvaluationStats qs m).passed : ℚ) /
          ((getEvaluationStats qs m).evaluated : ℚ) * 100
      else 0 := rfl

/-- Counting matches over `Object.values` is counting matching entries. -/
theorem length_filter_recordValues {α : Type} (m : List (String × α))
    (p : α → Bool) :
    ((recordValues m).filter p).length = (m.filter (fun x => p x.2)).length := by
  induction m with
  | nil => rfl
  | cons a l ih =>
    simp only [recordValues, List.map_cons, List.filter_cons] at *
    cases hpa : p a.2 <;> simp [hpa, ih]

/-! ## C1 -/

/-- The questionnaire the C1 counterexample loads: two questions sharing
the id `"1"`. -/
def dupIdQuestions : List Question := [sampleQuestion "1", sampleQuestion "1"]

/-- The C1 counterexample state: the duplicate-id list loaded into the
fresh store, then `setAnswer` called with text `"yes"` for each of the
two listed question ids. -/
def dupIdState : CompanyState :=
  answerAll (fun _ => "yes") (dupIdQuestions.map Question.id)
    (setQuestions dupIdQuestions initialCompanyState)

/-- C1 fails as stated when the loaded question list repeats an id: with
two questions both carrying id `"1"` (`N = 2 > 0`) and every listed id
answered with text of non-empty trim, the completed set holds a single
id, so `getProgress` returns `50`, not `100`, and `canSubmit` is
`false`. -/
theorem c1_duplicate_ids_counterexample :
    dupIdQuestions.length = 2 ∧
    (∀ i ∈ dupIdQuestions.map Question.id, jsTrim ((fun _ => "yes") i) ≠ "") ∧
    getProgress dupIdState = 50 ∧
    canSubmit dupIdState = false := by
  refine ⟨rfl, by decide, ?_, by decide⟩
  have h1 : dupIdState.completedQuestions.card = 1 := by decide
  have h2 : dupIdState.questions.length = 2 := by decide
  simp only [getProgress, h1, h2]
  norm_num

/-- C1 (amended: the question ids must be pairwise distinct): loading a
non-empty question list with pairwise-distinct ids into the fresh store
and then calling `setAnswer` for each listed id with text whose trim is
non-empty yields `getProgress () = 100` and `canSubmit () = true`. -/
theorem c1_all_answered_full_progress (qs : List Question)
    (t : String → String) (hne : qs ≠ [])
    (hnodup : (qs.map Question.id).Nodup)
    (ht : ∀ i ∈ qs.map Question.id, jsTrim (t i) ≠ "") :
    getProgress (answerAll t (qs.map Question.id)
        (setQuestions qs initialCompanyState)) = 100 ∧
    canSubmit (answerAll t (qs.map Question.id)
        (setQuestions qs initialCompanyState)) = true := by
  have hq : (answerAll t (qs.map Question.id)
      (setQuestions qs initialCompanyState)).questions = qs := by
    rw [answerAll_questions]
    rfl
  have hc : (answerAll t (qs.map Question.id)
      (setQuestions qs initialCompanyState)).completedQuestions =
      (qs.map Question.id).toFinset := by
    rw [answerAll_completedQuestions _ _ _ ht]
    exact Finset.empty_union _
  have hcard : (answerAll t (qs.map Question.id)
      (setQuestions qs initialCompanyState)).completedQuestions.card =
      qs.length := by
    rw [hc, List.toFinset_card_of_nodup hnodup, List.length_map]
  have hlen : qs.length ≠ 0 := fun h => hne (List.length_eq_zero.mp h)
  constructor
  · simp only [getProgress, hq, hcard, if_neg hlen]
    rw [div_self (by exact_mod_cast hlen : (qs.length : ℚ) ≠ 0)]
    norm_num
  · simp only [canSubmit, hq, hcard]
    simp [Nat.pos_of_ne_zero hlen]

/-- The amended C1 at a concrete input: two distinct ids, both answered
`"yes"`. -/
theorem c1_all_answered_full_progress_witness :
    getProgress (answerAll (fun _ => "yes")
        ([sampleQuestion "1", sampleQuestion "2"].map Question.id)
        (setQuestions [sampleQuestion "1", sampleQuestion "2"]
          initialCompanyState)) = 100 ∧
    canSubmit (answerAll (fun _ => "yes")
        ([sampleQuestion "1", sampleQuestion "2"].map Question.id)
        (setQuestions [sampleQuestion "1", sampleQuestion "2"]
          initialCompanyState)) = true :=
  c1_all_answered_full_progress [sampleQuestion "1", sampleQuestion "2"]
    (fun _ => "yes") (by decide) (by decide) (by decide)

/-! ## C2 -/

/-- C2 (amended: the demotion-to-ineligible consequence additionally
requires the overwritten question id to be in the completed set, which
holds in particular whenever its previous recorded answer had non-empty
trim): `setAnswer` with empty-trimmed text removes the id from the
completed set, `setAnswer` with non-empty-trimmed text inserts it, and if
`canSubmit ()` was `true` and the overwritten id was completed, then
after overwriting with an empty string `canSubmit ()` is `false`. -/
theorem c2_setAnswer_completion (s : CompanyState) (q a : String)
    (f : Option (List JsFile)) :
    (jsTrim a = "" →
      (setAnswer q a f s).completedQuestions = s.completedQuestions.erase q) ∧
    (jsTrim a ≠ "" →
      (setAnswer q a f s).completedQuestions = insert q s.completedQuestions) ∧
    (jsTrim a = "" → canSubmit s = true → q ∈ s.completedQuestions →
      canSubmit (setAnswer q a f s) = false) := by
  refine ⟨fun ha => by simp [setAnswer, ha], fun ha => by simp [setAnswer, ha],
    fun ha hcs hq => ?_⟩
  have hsub : 0 < s.questions.length ∧
      s.completedQuestions.card = s.questions.length := by
    simpa [canSubmit, Bool.and_eq_true, decide_eq_true_iff] using hcs
  have hcomp : (setAnswer q a f s).completedQuestions =
      s.completedQuestions.erase q := by
    simp [setAnswer, ha]
  have hpos : 0 < s.completedQuestions.card := Finset.card_pos.mpr ⟨q, hq⟩
  have hne : (setAnswer q a f s).completedQuestions.card ≠
      s.questions.length := by
    rw [hcomp, Finset.card_erase_of_mem hq]
    omega
  have hform : canSubmit (setAnswer q a f s) =
      (decide (0 < s.questions.length) &&
        decide ((setAnswer q a f s).completedQuestions.card =
          s.questions.length)) := rfl
  rw [hform]
  simp [hne]

/-- A state in which `canSubmit` is `true` via a completed answered
question, used by the C2 witness. -/
def c2WitnessState : CompanyState :=
  setAnswer "1" "yes" none
    (setQuestions [sampleQuestion "1"] initialCompanyState)

/-- The amended C2 at concrete inputs: erasing on whitespace-only text,
inserting on non-empty text, and demotion of `canSubmit` when the
completed question `"1"` is overwritten with `" "`. -/
theorem c2_setAnswer_completion_witness :
    (setAnswer "1" " " none c2WitnessState).completedQuestions =
      c2WitnessState.completedQuestions.erase "1" ∧
    (setAnswer "2" "yes" none c2WitnessState).completedQuestions =
      insert "2" c2WitnessState.completedQuestions ∧
    canSubmit (setAnswer "1" " " none c2WitnessState) = false :=
  ⟨(c2_setAnswer_completion c2WitnessState "1" " " none).1 (by decide),
   (c2_setAnswer_completion c2WitnessState "2" "yes" none).2.1 (by decide),
   (c2_setAnswer_completion c2WitnessState "1" " " none).2.2 (by decide)
     (by decide) (by decide)⟩

/-- The C2 counterexample's starting state: question `"2"` was answered
`"yes"` before the single-question list `["1"]` was loaded, and `"1"`
was then answered with the empty string; the completed set is `{"2"}`,
whose size equals the question count, so `canSubmit` is `true`. -/
def c2PriorState : CompanyState :=
  setAnswer "1" "" none
    (setQuestions [sampleQuestion "1"]
      (setAnswer "2" "yes" none initialCompanyState))

/-- C2's final consequence fails as stated: in `c2PriorState` the id
`"1"` has a recorded answer and `canSubmit ()` is `true`, yet
overwriting that answer with the empty string leaves `canSubmit ()`
`true` (the erase is a no-op because `"1"` was never in the completed
set; the set still holds the stale id `"2"`). -/
theorem c2_overwrite_empty_counterexample :
    recordHas c2PriorState.answers "1" = true ∧
    canSubmit c2PriorState = true ∧
    canSubmit (setAnswer "1" "" none c2PriorState) = true := by decide

/-! ## C3 -/

/-- C3: for every prior auditor-store state, `setSelectedCompany` (with
any company, or `null`) empties the evaluations map and the
provision-evaluations map and nulls the current provision id, while
storing the selected company — switching companies never leaks prior
judgments. -/
theorem c3_setSelectedCompany_clears_evaluations (s : AuditorState)
    (c : Option Company) :
    (setSelectedCompany c s).evaluations = [] ∧
    (setSelectedCompany c s).provisionEvaluations = [] ∧
    (setSelectedCompany c s).currentProvisionId = none ∧
    (setSelectedCompany c s).selectedCompany = c :=
  ⟨rfl, rfl, rfl, rfl⟩

/-! ## C4 -/

/-- C4: `passPercentage` is computed over evaluated questions: it is
exactly `0` whenever the evaluated count is `0` (the guarded branch, so
no division is ever evaluated there), and equals
`passed / evaluated × 100` whenever the evaluated count is positive. -/
theorem c4_passPercentage_guarded (qs : List Question)
    (m : List (String × Evaluation)) :
    ((getEvaluationStats qs m).evaluated = 0 →
      (getEvaluationStats qs m).passPercentage = 0) ∧
    (0 < (getEvaluationStats qs m).evaluated →
      (getEvaluationStats qs m).passPercentage =
        ((getEvaluationStats qs m).passed : ℚ) /
          ((getEvaluationStats qs m).evaluated : ℚ) * 100) := by
  constructor
  · intro h
    rw [getEvaluationStats_passPercentage, if_neg]
    omega
  · intro h
    rw [getEvaluationStats_passPercentage, if_pos h]

/-- C4 at concrete inputs: the empty evaluations map gives pass
percentage `0`, and a single-entry map gives the ratio formula. -/
theorem c4_passPercentage_guarded_witness :
    (getEvaluationStats [] []).passPercentage = 0 ∧
    (getEvaluationStats [sampleQuestion "1"]
        [("1", sampleEvaluation "1" EvalResult.pass)]).passPercentage =
      ((getEvaluationStats [sampleQuestion "1"]
          [("1", sampleEvaluation "1" EvalResult.pass)]).passed : ℚ) /
        ((getEvaluationStats [sampleQuestion "1"]
            [("1", sampleEvaluation "1" EvalResult.pass)]).evaluated : ℚ) *
        100 :=
  ⟨(c4_passPercentage_guarded [] []).1 rfl,
   (c4_passPercentage_guarded [sampleQuestion "1"]
      [("1", sampleEvaluation "1" EvalResult.pass)]).2 (by decide)⟩

/-! ## C5 -/

/-- C5: `getEvaluationStats` returns `total` = number of questions,
`evaluated` = number of evaluation entries, `passed` / `failed` = number
of entries whose result is pass / fail, `pending` = `total − evaluated`;
and on the two-question scenario with Q1 evaluated pass and Q2 evaluated
fail it returns total 2, evaluated 2, passed 1, failed 1, pending 0 and
`passPercentage` 50. -/
theorem c5_getEvaluationStats_fields :
    (∀ (qs : List Question) (m : List (String × Evaluation)),
      (getEvaluationStats qs m).total = qs.length ∧
      (getEvaluationStats qs m).evaluated = m.length ∧
      (getEvaluationStats qs m).passed =
        (m.filter (fun x => x.2.result == EvalResult.pass)).length ∧
      (getEvaluationStats qs m).failed =
        (m.filter (fun x => x.2.result == EvalResult.fail)).length ∧
      (getEvaluationStats qs m).pending =
        (qs.length : Int) - (m.length : Int)) ∧
    ((getEvaluationStats [sampleQuestion "1", sampleQuestion "2"]
        [("1", sampleEvaluation "1" EvalResult.pass),
         ("2", sampleEvaluation "2" EvalResult.fail)]).total = 2 ∧
      (getEvaluationStats [sampleQuestion "1", sampleQuestion "2"]
        [("1", sampleEvaluation "1" EvalResult.pass),
         ("2", sampleEvaluation "2" EvalResult.fail)]).evaluated = 2 ∧
      (getEvaluationStats [sampleQuestion "1", sampleQuestion "2"]
        [("1", sampleEvaluation "1" EvalResult.pass),
         ("2", sampleEvaluation "2" EvalResult.fail)]).passed = 1 ∧
      (getEvaluationStats [sampleQuestion "1", sampleQuestion "2"]
        [("1", sampleEvaluation "1" EvalResult.pass),
         ("2", sampleEvaluation "2" EvalResult.fail)]).failed = 1 ∧
      (getEvaluationStats [sampleQuestion "1", sampleQuestion "2"]
        [("1", sampleEvaluation "1" EvalResult.pass),
         ("2", sampleEvaluation "2" EvalResult.fail)]).pending = 0 ∧
      (getEvaluationStats [sampleQuestion "1", sampleQuestion "2"]
        [("1", sampleEvaluation "1" EvalResult.pass),
         ("2", sampleEvaluation "2" EvalResult.fail)]).passPercentage = 50) := by
  constructor
  · intro qs m
    refine ⟨rfl, ?_, ?_, ?_, ?_⟩
    · show (recordKeys m).length = m.length
      simp [recordKeys]
    · exact length_filter_recordValues m (fun e => e.result == EvalResult.pass)
    · exact length_filter_recordValues m (fun e => e.result == EvalResult.fail)
    · show (qs.length : Int) - ((recordKeys m).length : Int) = _
      simp [recordKeys]
  · refine ⟨by decide, by decide, by decide, by decide, by decide, ?_⟩
    rw [getEvaluationStats_passPercentage]
    have h1 : (getEvaluationStats [sampleQuestion "1", sampleQuestion "2"]
        [("1", sampleEvaluation "1" EvalResult.pass),
         ("2", sampleEvaluation "2" EvalResult.fail)]).passed = 1 := by decide
    have h2 : (getEvaluationStats [sampleQuestion "1", sampleQuestion "2"]
        [("1", sampleEvaluation "1" EvalResult.pass),
         ("2", sampleEvaluation "2" EvalResult.fail)]).evaluated = 2 := by decide
    rw [h1, h2, if_pos (by omega)]
    norm_num

/-! ## C6 -/

/-- C6: the questionnaire page's cursor-move operation
(`navigateToQuestion`, which alone calls the store's
`setCurrentQuestionIndex`) is a no-op on every out-of-range index: for
every store state and every index that is negative or not less than the
number of loaded questions, the state is unchanged. -/
theorem c6_navigate_out_of_range_noop (s : CompanyState) (i : Int)
    (h : i < 0 ∨ (s.questions.length : Int) ≤ i) :
    navigateToQuestion i s = s := by
  unfold navigateToQuestion
  rw [if_neg]
  rintro ⟨h0, hlt⟩
  rcases h with h | h <;> omega

/-- C6 at a concrete input: index `5` against a one-question list. -/
theorem c6_navigate_out_of_range_noop_witness :
    navigateToQuestion 5 (setQuestions [sampleQuestion "1"]
        initialCompanyState) =
      setQuestions [sampleQuestion "1"] initialCompanyState :=
  c6_navigate_out_of_range_noop _ 5 (Or.inr (by decide))

/-! ## C7 -/

/-- C7 fails as stated: `submitAnswers` sets the submitted flag, yet the
store operation sequence consisting of `resetQuestionnaire` sets it back
to `false`. -/
theorem c7_reset_unsubmits_counterexample :
    (submitAnswers initialCompanyState).isSubmitted = true ∧
    (applyOps [CompanyOp.resetQuestionnaire]
        (submitAnswers initialCompanyState)).isSubmitted = false :=
  ⟨rfl, rfl⟩

/-- C7 (amended: irreversible except through `resetQuestionnaire`, the
whole-questionnaire reset, which does clear the flag): once the
submitted flag is `true`, no sequence of store operations avoiding
`resetQuestionnaire` ever sets it back to `false`. -/
theorem c7_submitted_stable_without_reset (ops : List CompanyOp)
    (s : CompanyState)
    (hops : ∀ op ∈ ops, op ≠ CompanyOp.resetQuestionnaire)
    (hsub : s.isSubmitted = true) :
    (applyOps ops s).isSubmitted = true := by
  induction ops generalizing s with
  | nil => exact hsub
  | cons op ops ih =>
    have hop : op ≠ CompanyOp.resetQuestionnaire :=
      hops op (List.mem_cons_self _ _)
    have hops' : ∀ o ∈ ops, o ≠ CompanyOp.resetQuestionnaire := fun o ho =>
      hops o (List.mem_cons_of_mem _ ho)
    show (applyOps ops (applyOp op s)).isSubmitted = true
    apply ih _ hops'
    cases op with
    | setCurrentCompany c => exact hsub
    | setQuestions qs => exact hsub
    | setAnswer q a f => exact hsub
    | setCurrentQuestionIndex i => exact hsub
    | markQuestionCompleted q => exact hsub
    | submitAnswers => rfl
    | resetQuestionnaire => exact absurd rfl hop

/-- The amended C7 at a concrete input: a submitted store survives a
load-answer-navigate sequence with the flag still set. -/
theorem c7_submitted_stable_without_reset_witness :
    (applyOps [CompanyOp.setQuestions [sampleQuestion "1"],
               CompanyOp.setAnswer "1" "yes" none,
               CompanyOp.setCurrentQuestionIndex 0]
        (submitAnswers initialCompanyState)).isSubmitted = true :=
  c7_submitted_stable_without_reset _ _ (by decide) rfl

/-! ## C8 -/

/-- C8: `setQuestions qs` sets the question list to `qs` and resets the
cursor to `0`, and changes nothing else — the answers map, the
completed-questions set (including marks for ids not in the new list),
the submitted flag and the current company are all unchanged. -/
theorem c8_setQuestions_frame (s : CompanyState) (qs : List Question) :
    (setQuestions qs s).questions = qs ∧
    (setQuestions qs s).currentQuestionIndex = 0 ∧
    (setQuestions qs s).answers = s.answers ∧
    (setQuestions qs s).completedQuestions = s.completedQuestions ∧
    (setQuestions qs s).isSubmitted = s.isSubmitted ∧
    (setQuestions qs s).currentCompany = s.currentCompany :=
  ⟨rfl, rfl, rfl, rfl, rfl, rfl⟩

/-! ## C9 -/

/-- C9 fails as stated on two inputs: with offset `5` (the length of the
mock list) and no limit, `applyPagination` skips the out-of-range offset
and the fallback returns all five mock organizations, while
offset-then-limit pagination returns the empty list; and with limit `0`
the falsy limit is skipped and the fallback again returns all five,
while taking `0` items returns the empty list. -/
theorem c9_pagination_counterexample :
    organizationsGetAllFallback (some ⟨none, some 5⟩) = MOCK_ORGANIZATIONS ∧
    paginateSpec MOCK_ORGANIZATIONS (some ⟨none, some 5⟩) = [] ∧
    organizationsGetAllFallback (some ⟨some 0, none⟩) = MOCK_ORGANIZATIONS ∧
    paginateSpec MOCK_ORGANIZATIONS (some ⟨some 0, none⟩) = [] :=
  ⟨rfl, rfl, rfl, rfl⟩

/-- C9 (amended: offsets at or beyond the mock list's length and a limit
of `0` are ignored by `applyPagination` rather than applied — under an
in-range offset and a non-zero limit the claim holds): when the fetch
fails, `getAll`'s fallback equals the mock organization list with the
offset applied first and then the limit. -/
theorem c9_fallback_pagination (options : Option PaginationOptions)
    (hoff : ∀ off ∈ options.bind PaginationOptions.offset,
      off < MOCK_ORGANIZATIONS.length)
    (hlim : ∀ lim ∈ options.bind PaginationOptions.limit, lim ≠ 0) :
    organizationsGetAllFallback options =
      paginateSpec MOCK_ORGANIZATIONS options := by
  unfold organizationsGetAllFallback applyPagination paginateSpec
  cases options with
  | none => rfl
  | some o =>
    obtain ⟨lim, off⟩ := o
    simp only [Option.some_bind] at hoff hlim ⊢
    cases off with
    | none =>
      cases lim with
      | none => simp
      | some l =>
        have hl : l ≠ 0 := hlim l (by simp)
        simp [hl]
    | some n =>
      have ho : n < MOCK_ORGANIZATIONS.length := hoff n (by simp)
      by_cases hz : n = 0
      · subst hz
        cases lim with
        | none => simp
        | some l =>
          have hl : l ≠ 0 := hlim l (by simp)
          simp [hl]
      · cases lim with
        | none => simp [hz, ho]
        | some l =>
          have hl : l ≠ 0 := hlim l (by simp)
          simp [hz, ho, hl]

/-- The amended C9 at a concrete input: offset `2` and limit `2`. -/
theorem c9_fallback_pagination_witness :
    organizationsGetAllFallback (some ⟨some 2, some 2⟩) =
      paginateSpec MOCK_ORGANIZATIONS (some ⟨some 2, some 2⟩) :=
  c9_fallback_pagination (some ⟨some 2, some 2⟩) (by decide) (by decide)

/-! ## C10 -/

/-- C10: `getCurrentQuestion` is total — it returns the question at
`currentQuestionIndex` (the list lookup succeeds) whenever
`0 ≤ currentQuestionIndex < questions.length`, and `null` for every
other state (empty list, negative cursor, or cursor past the end). -/
theorem c10_getCurrentQuestion_total (s : CompanyState) :
    ((0 ≤ s.currentQuestionIndex ∧
        s.currentQuestionIndex < (s.questions.length : Int)) →
      getCurrentQuestion s =
          s.questions.get? s.currentQuestionIndex.toNat ∧
        (s.questions.get? s.currentQuestionIndex.toNat).isSome = true) ∧
    (¬ (0 ≤ s.currentQuestionIndex ∧
        s.currentQuestionIndex < (s.questions.length : Int)) →
      getCurrentQuestion s = none) := by
  constructor
  · intro h
    have hlt : s.currentQuestionIndex.toNat < s.questions.length := by omega
    have hget := List.get?_eq_get hlt
    unfold getCurrentQuestion jsIndex
    rw [dif_pos ⟨h.1, hlt⟩, hget]
    simp
  · intro h
    unfold getCurrentQuestion jsIndex
    rw [dif_neg]
    rintro ⟨h0, hlt⟩
    exact h ⟨h0, by omega⟩

/-- C10 at concrete inputs: a one-question list with the cursor at `0`
yields that question, and the same list with the cursor forced to `5`
yields `null`. -/
theorem c10_getCurrentQuestion_total_witness :
    getCurrentQuestion (setQuestions [sampleQuestion "1"]
        initialCompanyState) = some (sampleQuestion "1") ∧
    getCurrentQuestion (setCurrentQuestionIndex 5
        (setQuestions [sampleQuestion "1"] initialCompanyState)) = none :=
  ⟨((c10_getCurrentQuestion_total
      (setQuestions [sampleQuestion "1"] initialCompanyState)).1
        (by decide)).1.trans rfl,
   (c10_getCurrentQuestion_total (setCurrentQuestionIndex 5
      (setQuestions [sampleQuestion "1"] initialCompanyState))).2 (by decide)⟩

end CNAV
